import Mathlib

/-!
Shallow embedding of the checkout/fulfillment core of the
Designer-cloth-ecommerce server (Cart model, Order model, cart/order
controllers).  JS numbers are modelled as rationals, `Math.round` as
floor(x + 1/2) (JS rounds halves toward positive infinity), Mongo
documents as Lean structures, and each controller action as a pure
function from the pre-state to the post-state plus an optional error
message (an error result corresponds to the controller returning a 4xx
before persisting anything).
-/

namespace Shop

/-- Model of JavaScript `Math.round`: rounds to the nearest integer,
halves toward positive infinity. -/
def jsRound (q : ℚ) : ℤ := Int.floor (q + 1/2)

/-- Model of JavaScript `q || 1` on a quantity: 0 (falsy) becomes 1. -/
def jsQtyOr1 (q : Nat) : Nat := if q = 0 then 1 else q

/-- Cart line item (sub-schema `cartItemSchema` in Cart.model.js).
`id` models the Mongo subdocument `_id` used by `items.id` / `items.pull`. -/
structure CartItem where
  id : Nat
  product : Nat
  size : String
  color : String
  sku : Option String
  quantity : Nat
  price : ℚ
deriving Repr, DecidableEq

/-- The (product, size, color) triple that `addItem` merges on. -/
def CartItem.key (i : CartItem) : Nat × String × String := (i.product, i.size, i.color)

/-- Cart document (`cartSchema` in Cart.model.js). -/
structure Cart where
  user : Nat
  items : List CartItem
  subtotal : ℚ
  discount : ℚ
  couponCode : Option String
  shipping : ℚ
  tax : ℚ
  total : ℚ
deriving Repr, DecidableEq

/-- The 18% GST rate (`taxRate` in `calculateTotals`). -/
def taxRate : ℚ := 18/100

/-- Method `cartSchema.methods.calculateTotals`. -/
def Cart.calculateTotals (c : Cart) : Cart :=
  let subtotal := c.items.foldl (fun sum item => sum + item.price * (item.quantity : ℚ)) 0
  let tax := (jsRound (subtotal * taxRate * 100) : ℚ) / 100
  let shipping : ℚ := if subtotal ≥ 999 then 0 else 99
  { c with subtotal := subtotal, tax := tax, shipping := shipping,
           total := subtotal + tax + shipping - c.discount }

/-- The merge-or-append loop body of `cartSchema.methods.addItem`:
the first item with the same (product, size, color) triple gets its
quantity increased by `item.quantity || 1`; otherwise the item is pushed. -/
def addItemAux (items : List CartItem) (it : CartItem) : List CartItem :=
  match items with
  | [] => [it]
  | j :: rest =>
    if j.key = it.key then
      { j with quantity := j.quantity + jsQtyOr1 it.quantity } :: rest
    else
      j :: addItemAux rest it

/-- Method `cartSchema.methods.addItem`. -/
def Cart.addItem (c : Cart) (it : CartItem) : Cart :=
  Cart.calculateTotals { c with items := addItemAux c.items it }

/-- Method `cartSchema.methods.updateItemQuantity` (`quantity ≤ 0` pulls the item). -/
def Cart.updateItemQuantity (c : Cart) (itemId : Nat) (quantity : Int) : Cart :=
  let items :=
    if (c.items.find? (fun i => i.id == itemId)).isSome then
      if quantity ≤ 0 then c.items.filter (fun i => ! (i.id == itemId))
      else c.items.map (fun i => if i.id == itemId then { i with quantity := quantity.toNat } else i)
    else c.items
  Cart.calculateTotals { c with items := items }

/-- Method `cartSchema.methods.removeItem`. -/
def Cart.removeItem (c : Cart) (itemId : Nat) : Cart :=
  Cart.calculateTotals { c with items := c.items.filter (fun i => ! (i.id == itemId)) }

/-- Method `cartSchema.methods.clearCart`. -/
def Cart.clearCart (c : Cart) : Cart :=
  Cart.calculateTotals { c with items := [], couponCode := none, discount := 0 }

/-- The fixed coupon table in `applyCoupon` (cart.controller.js). -/
def validCoupons : List (String × Nat) :=
  [("FIRST10", 10), ("SAVE20", 20), ("DESIGNER15", 15)]

/-- Table lookup `validCoupons[code]`. -/
def lookupCoupon (code : String) : Option Nat :=
  (validCoupons.find? (fun p => p.1 == code)).map (fun p => p.2)

/-- Model of JavaScript `String.prototype.toUpperCase` (ASCII): upper-case
every character. -/
def jsToUpper (s : String) : String := String.mk (s.data.map Char.toUpper)

/-- Controller `applyCoupon`: returns the post-state cart and an optional
error message; on error the cart is not saved, so the pre-state cart is
returned unchanged. -/
def applyCoupon (c : Cart) (couponCode : String) : Cart × Option String :=
  let code := jsToUpper couponCode
  match lookupCoupon code with
  | none => (c, some "Invalid coupon code")
  | some pct =>
    let c1 := { c with couponCode := some code,
                       discount := (jsRound ((c.subtotal * (pct : ℚ)) / 100) : ℚ) }
    (Cart.calculateTotals c1, none)

/-- Controller `removeCoupon`. -/
def removeCoupon (c : Cart) : Cart :=
  Cart.calculateTotals { c with couponCode := none, discount := 0 }

/-- Subtotal of a list of items, as computed by `calculateTotals`. -/
def itemsSubtotal (items : List CartItem) : ℚ :=
  items.foldl (fun sum item => sum + item.price * (item.quantity : ℚ)) 0

/-- Rounding to 2 decimal places, `round(x, 2)` in the spec's notation:
exactly `Math.round(x * 100) / 100`. -/
def round2 (x : ℚ) : ℚ := (jsRound (x * 100) : ℚ) / 100

/-- Whether some item of the list has the given (product, size, color) key. -/
def hasKey (items : List CartItem) (k : Nat × String × String) : Bool :=
  items.any (fun j => j.key == k)

/-- The cart-shape invariant: item (product, size, color) keys are pairwise
distinct. -/
def ItemKeysNodup (items : List CartItem) : Prop :=
  (items.map CartItem.key).Nodup

/-- Total quantity held by items with the given key. -/
def keyQty (items : List CartItem) (k : Nat × String × String) : Nat :=
  ((items.filter (fun j => j.key == k)).map (fun j => j.quantity)).sum

theorem jsRound_eq (q : ℚ) (n : ℤ) (h1 : (n : ℚ) ≤ q + 1/2) (h2 : q + 1/2 < n + 1) :
    jsRound q = n := by
  unfold jsRound
  rw [Int.floor_eq_iff]
  refine ⟨by exact_mod_cast h1, by exact_mod_cast h2⟩

theorem jsRound_zero : jsRound 0 = 0 := by
  apply jsRound_eq <;> norm_num

/-- C2: after `calculateTotals`, subtotal is the sum over items of
price times quantity; tax is `round(subtotal * 0.18, 2)`; shipping is 0
exactly when subtotal is at least 999 and 99 otherwise; and total equals
`subtotal + tax + shipping - discount` with no flooring at 0 (discount
is passed through unchanged). -/
theorem claim_C2_cart_pricing (c : Cart) :
    (c.calculateTotals).subtotal = itemsSubtotal c.items ∧
    (c.calculateTotals).tax = round2 ((c.calculateTotals).subtotal * taxRate) ∧
    ((c.calculateTotals).shipping = 0 ↔ (c.calculateTotals).subtotal ≥ 999) ∧
    ((c.calculateTotals).subtotal < 999 → (c.calculateTotals).shipping = 99) ∧
    (c.calculateTotals).total =
      (c.calculateTotals).subtotal + (c.calculateTotals).tax +
        (c.calculateTotals).shipping - (c.calculateTotals).discount ∧
    (c.calculateTotals).discount = c.discount := by
  refine ⟨rfl, rfl, ?_, ?_, rfl, rfl⟩
  · simp only [Cart.calculateTotals, itemsSubtotal]
    split_ifs with h
    · simp [h]
    · simp [h]
  · intro h
    simp only [Cart.calculateTotals, itemsSubtotal] at h ⊢
    rw [if_neg (by exact not_le.mpr h)]

/-- C10: the item mutators `addItem`, `updateItemQuantity` and
`removeItem` recompute the derived totals but never touch `discount` or
`couponCode`; those two fields change only through `applyCoupon`,
`removeCoupon` and `clearCart`. -/
theorem claim_C10_mutators_preserve_discount (c : Cart) (it : CartItem)
    (itemId : Nat) (q : Int) :
    (c.addItem it).discount = c.discount ∧
    (c.addItem it).couponCode = c.couponCode ∧
    (c.updateItemQuantity itemId q).discount = c.discount ∧
    (c.updateItemQuantity itemId q).couponCode = c.couponCode ∧
    (c.removeItem itemId).discount = c.discount ∧
    (c.removeItem itemId).couponCode = c.couponCode :=
  ⟨rfl, rfl, rfl, rfl, rfl, rfl⟩

/-- An itemless cart that still carries a coupon discount of 50
(reachable: add an item, apply a coupon, remove the item — the item
mutators never reset the discount). -/
def emptyCartWithDiscount : Cart :=
  { user := 0, items := [], subtotal := 0, discount := 50, couponCode := some "SAVE20",
    shipping := 0, tax := 0, total := 0 }

/-- C9 counterexample: `calculateTotals` on a cart with no items does
not always yield total 99 — a leftover discount is still subtracted, so
the cart above totals 49. -/
theorem claim_C9_counterexample :
    emptyCartWithDiscount.items = [] ∧
    (emptyCartWithDiscount.calculateTotals).total = 49 ∧
    ¬ (emptyCartWithDiscount.calculateTotals).total = 99 := by
  refine ⟨rfl, ?_, ?_⟩ <;>
    simp [Cart.calculateTotals, emptyCartWithDiscount, jsRound_zero] <;> norm_num

/-- C9 amended: on a cart with no items, `calculateTotals` yields
subtotal 0, tax 0, shipping 99 and total `99 - discount`; in particular
right after `clearCart` (which zeroes the discount, and also runs at
successful checkout) the total is exactly 99, not 0. -/
theorem claim_C9_empty_cart_totals (c : Cart) :
    (c.items = [] →
      (c.calculateTotals).subtotal = 0 ∧ (c.calculateTotals).tax = 0 ∧
      (c.calculateTotals).shipping = 99 ∧
      (c.calculateTotals).total = 99 - c.discount) ∧
    ((c.clearCart).subtotal = 0 ∧ (c.clearCart).tax = 0 ∧
      (c.clearCart).shipping = 99 ∧ (c.clearCart).total = 99) := by
  constructor
  · intro h
    refine ⟨?_, ?_, ?_, ?_⟩ <;>
      simp [Cart.calculateTotals, itemsSubtotal, h, jsRound_zero]
  · refine ⟨?_, ?_, ?_, ?_⟩ <;>
      simp [Cart.clearCart, Cart.calculateTotals, itemsSubtotal, jsRound_zero]

/-- Witness for the amended C9 at a concrete itemless cart. -/
theorem claim_C9_empty_cart_totals_witness :
    (emptyCartWithDiscount.calculateTotals).total = 99 - emptyCartWithDiscount.discount :=
  ((claim_C9_empty_cart_totals emptyCartWithDiscount).1 rfl).2.2.2

theorem hasKey_cons (j : CartItem) (rest : List CartItem) (k : Nat × String × String) :
    hasKey (j :: rest) k = ((j.key == k) || hasKey rest k) := by
  simp [hasKey]

theorem hasKey_cons_ne (j : CartItem) (rest : List CartItem) (k : Nat × String × String)
    (hk : ¬ j.key = k) (h : hasKey (j :: rest) k = true) : hasKey rest k = true := by
  rw [hasKey_cons] at h
  rcases Bool.or_eq_true_iff.mp h with h1 | h1
  · exact absurd (beq_iff_eq.mp h1) hk
  · exact h1

theorem keyQty_cons_eq (j : CartItem) (rest : List CartItem) (k : Nat × String × String)
    (hk : j.key = k) : keyQty (j :: rest) k = j.quantity + keyQty rest k := by
  simp [keyQty, List.filter_cons, hk]

theorem keyQty_cons_ne (j : CartItem) (rest : List CartItem) (k : Nat × String × String)
    (hk : ¬ j.key = k) : keyQty (j :: rest) k = keyQty rest k := by
  simp [keyQty, List.filter_cons, hk]

theorem quantity_update_key (j : CartItem) (n : Nat) :
    ({ j with quantity := n } : CartItem).key = j.key := rfl

theorem quantity_update_val (j : CartItem) (n : Nat) :
    ({ j with quantity := n } : CartItem).quantity = n := rfl

theorem addItemAux_keys_of_has (items : List CartItem) (it : CartItem)
    (h : hasKey items it.key = true) :
    (addItemAux items it).map CartItem.key = items.map CartItem.key := by
  induction items with
  | nil => simp [hasKey] at h
  | cons j rest ih =>
    by_cases hk : j.key = it.key
    · simp only [addItemAux]
      rw [if_pos hk]
      simp [quantity_update_key]
    · simp only [addItemAux]
      rw [if_neg hk]
      simp [ih (hasKey_cons_ne j rest it.key hk h)]

theorem addItemAux_keys_of_not (items : List CartItem) (it : CartItem)
    (h : hasKey items it.key = false) :
    (addItemAux items it).map CartItem.key = items.map CartItem.key ++ [it.key] := by
  induction items with
  | nil => simp [addItemAux]
  | cons j rest ih =>
    rw [hasKey_cons] at h
    rcases Bool.or_eq_false_iff.mp h with ⟨h1, h2⟩
    simp only [addItemAux]
    rw [if_neg (by exact beq_eq_false_iff_ne.mp h1)]
    simp [ih h2]

theorem addItemAux_length_of_has (items : List CartItem) (it : CartItem)
    (h : hasKey items it.key = true) :
    (addItemAux items it).length = items.length := by
  have h2 := addItemAux_keys_of_has items it h
  calc (addItemAux items it).length
      = ((addItemAux items it).map CartItem.key).length := by simp
    _ = (items.map CartItem.key).length := by rw [h2]
    _ = items.length := by simp

theorem addItemAux_keyQty (items : List CartItem) (it : CartItem)
    (h : hasKey items it.key = true) :
    keyQty (addItemAux items it) it.key = keyQty items it.key + jsQtyOr1 it.quantity := by
  induction items with
  | nil => simp [hasKey] at h
  | cons j rest ih =>
    by_cases hk : j.key = it.key
    · simp only [addItemAux]
      rw [if_pos hk]
      rw [keyQty_cons_eq _ _ _ (by rw [quantity_update_key]; exact hk)]
      rw [keyQty_cons_eq _ _ _ hk]
      simp only [quantity_update_val]
      omega
    · simp only [addItemAux]
      rw [if_neg hk]
      rw [keyQty_cons_ne _ _ _ hk, keyQty_cons_ne _ _ _ hk]
      exact ih (hasKey_cons_ne j rest it.key hk h)

theorem addItemAux_nodup (items : List CartItem) (it : CartItem)
    (h : ((items.map CartItem.key)).Nodup) :
    ((addItemAux items it).map CartItem.key).Nodup := by
  by_cases hk : hasKey items it.key = true
  · rw [addItemAux_keys_of_has items it hk]; exact h
  · rw [addItemAux_keys_of_not items it (by simpa using hk)]
    rw [List.nodup_append]
    refine ⟨h, List.nodup_singleton _, ?_⟩
    intro a ha hb
    simp only [List.mem_singleton] at hb
    subst hb
    apply hk
    simp only [List.mem_map] at ha
    obtain ⟨x, hx, hxk⟩ := ha
    simp only [hasKey, List.any_eq_true]
    exact ⟨x, hx, beq_iff_eq.mpr hxk⟩

/-- C4: `addItem` merges an incoming item into an existing item with
the same (product, size, color) triple — the item count stays the same
and the key's total quantity grows by the added quantity — and it
preserves the at-most-one-item-per-triple invariant, so every cart
reachable through `addItem` satisfies it. -/
theorem claim_C4_addItem_merges (c : Cart) (it : CartItem) :
    (hasKey c.items it.key = true →
      (c.addItem it).items.length = c.items.length ∧
      keyQty (c.addItem it).items it.key = keyQty c.items it.key + jsQtyOr1 it.quantity) ∧
    (ItemKeysNodup c.items → ItemKeysNodup (c.addItem it).items) := by
  constructor
  · intro h
    exact ⟨addItemAux_length_of_has c.items it h, addItemAux_keyQty c.items it h⟩
  · intro h
    exact addItemAux_nodup c.items it h

/-- Witness for C4: adding (product 7, size M, color red) to a cart
already holding that triple with quantity 1 keeps one item and sums the
quantities to 3. -/
theorem claim_C4_addItem_merges_witness :
    (Cart.addItem
        { user := 1,
          items := [{ id := 0, product := 7, size := "M", color := "red", sku := none,
                      quantity := 1, price := 500 }],
          subtotal := 500, discount := 0, couponCode := none,
          shipping := 99, tax := 90, total := 689 }
        { id := 1, product := 7, size := "M", color := "red", sku := none,
          quantity := 2, price := 500 }).items.length = 1 := by
  have h := (claim_C4_addItem_merges
    { user := 1,
      items := [{ id := 0, product := 7, size := "M", color := "red", sku := none,
                  quantity := 1, price := 500 }],
      subtotal := 500, discount := 0, couponCode := none,
      shipping := 99, tax := 90, total := 689 }
    { id := 1, product := 7, size := "M", color := "red", sku := none,
      quantity := 2, price := 500 }).1 (by decide)
  exact h.1

/-- A concrete cart with subtotal 1000, used as the C6 witness input. -/
def cartSubtotal1000 : Cart :=
  { user := 2, items := [], subtotal := 1000, discount := 0, couponCode := none,
    shipping := 0, tax := 180, total := 1180 }

/-- C6: applying a coupon found in the fixed table sets the discount to
`Math.round(subtotal * percent / 100)` computed from the cart's current
subtotal — independent of any previously applied discount, so
re-application recomputes instead of accumulating — records the
upper-cased code, and recomputes the total with the new discount; a
code missing from the table fails with the invalid-coupon error and
returns the cart unchanged. -/
theorem claim_C6_apply_coupon (c : Cart) (code : String) :
    (lookupCoupon (jsToUpper code) = none →
      applyCoupon c code = (c, some "Invalid coupon code")) ∧
    (∀ pct : Nat, lookupCoupon (jsToUpper code) = some pct →
      (applyCoupon c code).2 = none ∧
      (applyCoupon c code).1.discount = (jsRound (c.subtotal * (pct : ℚ) / 100) : ℚ) ∧
      (applyCoupon c code).1.couponCode = some (jsToUpper code) ∧
      (applyCoupon c code).1.total =
        (applyCoupon c code).1.subtotal + (applyCoupon c code).1.tax +
          (applyCoupon c code).1.shipping -
          (jsRound (c.subtotal * (pct : ℚ) / 100) : ℚ)) := by
  constructor
  · intro h
    simp [applyCoupon, h]
  · intro pct h
    simp [applyCoupon, h, Cart.calculateTotals]

/-- Witness for C6: on a cart with subtotal 1000, `SAVE20` succeeds with
discount 200, and the unknown code `BOGUS` fails with the
invalid-coupon error and an unchanged cart. -/
theorem claim_C6_apply_coupon_witness :
    ((applyCoupon cartSubtotal1000 "SAVE20").2 = none ∧
      (applyCoupon cartSubtotal1000 "SAVE20").1.discount = 200) ∧
    applyCoupon cartSubtotal1000 "BOGUS" =
      (cartSubtotal1000, some "Invalid coupon code") := by
  have hs := (claim_C6_apply_coupon cartSubtotal1000 "SAVE20").2 20 (by decide)
  have hb := (claim_C6_apply_coupon cartSubtotal1000 "BOGUS").1 (by decide)
  refine ⟨⟨hs.1, ?_⟩, hb⟩
  rw [hs.2.1]
  have h200 : jsRound (cartSubtotal1000.subtotal * ((20 : Nat) : ℚ) / 100) = 200 := by
    apply jsRound_eq <;> norm_num [cartSubtotal1000]
  rw [h200]
  norm_num


/-! ### Product catalog and inventory -/

/-- Product variant (sub-schema `variantSchema` in Product.model.js).
Stock is modelled as an integer because `$inc` updates are unconditional. -/
structure Variant where
  size : String
  color : String
  sku : Option String
  stock : Int
  price : Option ℚ
deriving Repr, DecidableEq

/-- Product document (the fields of `productSchema` read by the cart and
order controllers). -/
structure Product where
  id : Nat
  name : String
  images : List String
  variants : List Variant
  totalStock : Int
deriving Repr, DecidableEq

/-- Lookup `product.variants.find((v) => v.size === size && v.color === color)`. -/
def Product.findVariant (p : Product) (size color : String) : Option Variant :=
  p.variants.find? (fun v => v.size == size && v.color == color)

/-- Update `$inc` applied at one array index: add `amt` to the stock of
the variant at position `i` (no change when `i` is out of range). -/
def incStockAt : List Variant → Nat → Int → List Variant
  | [], _, _ => []
  | v :: rest, 0, amt => { v with stock := v.stock + amt } :: rest
  | v :: rest, i + 1, amt => v :: incStockAt rest i amt

/-- Model of
`Product.updateOne({_id, 'variants.size', 'variants.color'}, {$inc: {'variants.$.stock': amt, totalStock: amt}})`
with MongoDB's actual multi-condition array semantics.  `_id` carries a
unique index, so only the first product with the given id can match.
Because the two dotted conditions are not wrapped in `$elemMatch`, the
document matches as soon as SOME variant has the size and SOME (possibly
different) variant has the color.  The positional `$` is then resolved
from a single leaf condition's first matching index, not from an element
satisfying the whole conjunction; modelled here as the first index
matching the filter's last dotted condition, `'variants.color'` (the
resolution MongoDB exhibits for this filter shape).  So the `$inc` can
land on a variant of the right color but the wrong size. -/
def updateOneProduct (ps : List Product) (pid : Nat) (size color : String) (amt : Int) :
    List Product :=
  match ps with
  | [] => []
  | p :: rest =>
    if p.id == pid then
      (if (p.variants.any (fun v => v.size == size))
          && (p.variants.any (fun v => v.color == color)) then
        { p with variants := incStockAt p.variants
                   (p.variants.findIdx (fun v => v.color == color)) amt,
                 totalStock := p.totalStock + amt }
       else p) :: rest
    else p :: updateOneProduct rest pid size color amt

/-- One purchase line as seen by the inventory update loops: product id,
variant selector and quantity. -/
structure Line where
  pid : Nat
  size : String
  color : String
  qty : Nat
deriving Repr, DecidableEq

def Line.key (l : Line) : Nat × String × String := (l.pid, l.size, l.color)

def CartItem.toLine (i : CartItem) : Line :=
  { pid := i.product, size := i.size, color := i.color, qty := i.quantity }

/-- The per-item stock update loop of `createOrder` (sign = -1) and
`cancelOrder` (sign = +1): each line `$inc`s its variant's stock and its
product's totalStock by `sign * quantity`. -/
def updateStockAll (ps : List Product) (lns : List Line) (sign : Int) : List Product :=
  lns.foldl (fun acc l => updateOneProduct acc l.pid l.size l.color (sign * (l.qty : Int))) ps

/-- Query `findOne` by product id (`_id` is unique). -/
def findProduct (ps : List Product) (pid : Nat) : Option Product :=
  ps.find? (fun p => p.id == pid)

/-- Observed stock of the (pid, size, color) variant. -/
def stockOf (ps : List Product) (pid : Nat) (size color : String) : Option Int :=
  (findProduct ps pid).bind (fun p => (p.findVariant size color).map (fun v => v.stock))

/-- Observed aggregate stock of the product. -/
def totalStockOf (ps : List Product) (pid : Nat) : Option Int :=
  (findProduct ps pid).map (fun p => p.totalStock)

/-- Whether the line's variant currently resolves (product found and a
(size, color) variant exists). -/
def resolvesb (ps : List Product) (l : Line) : Bool :=
  (stockOf ps l.pid l.size l.color).isSome

/-! ### Order model -/

/-- Order line item snapshot (sub-schema `orderItemSchema`). -/
structure OrderItem where
  product : Nat
  name : String
  image : String
  size : String
  color : String
  sku : Option String
  quantity : Nat
  price : ℚ
  total : ℚ
deriving Repr, DecidableEq

def OrderItem.toLine (i : OrderItem) : Line :=
  { pid := i.product, size := i.size, color := i.color, qty := i.quantity }

/-- One `statusHistory` entry. -/
structure StatusEntry where
  status : String
  date : Nat
  note : Option String
deriving Repr, DecidableEq

/-- Payment sub-document (method and status are the fields checkout sets). -/
structure Payment where
  method : String
  status : String
deriving Repr, DecidableEq

/-- Pricing snapshot copied verbatim from the cart at checkout. -/
structure Pricing where
  subtotal : ℚ
  discount : ℚ
  couponCode : Option String
  shipping : ℚ
  tax : ℚ
  total : ℚ
deriving Repr, DecidableEq

/-- Cancellation sub-document. -/
structure Cancellation where
  reason : Option String
  cancelledAt : Nat
  cancelledBy : Nat
deriving Repr, DecidableEq

/-- Shipping sub-document (the fields the state machine stamps). -/
structure ShippingInfo where
  carrier : Option String
  trackingNumber : Option String
  shippedAt : Option Nat
  deliveredAt : Option Nat
deriving Repr, DecidableEq

/-- Order document (`orderSchema`).  `statusModified` models mongoose's
dirty tracking for the `status` path: assigning a *different* value marks
the path modified, assigning an equal value does not, applying the schema
default at construction does not, and `save` resets the mark. -/
structure Order where
  orderNumber : Option String
  user : Nat
  items : List OrderItem
  payment : Payment
  pricing : Pricing
  status : String
  statusModified : Bool
  statusHistory : List StatusEntry
  shipping : ShippingInfo
  cancellation : Option Cancellation
deriving Repr, DecidableEq

/-- Mongoose assignment `this.status = s` with dirty tracking. -/
def Order.setStatus (o : Order) (s : String) : Order :=
  if o.status == s then o else { o with status := s, statusModified := true }

/-- Virtual `canCancel`: status is pending, confirmed or processing. -/
def Order.canCancel (o : Order) : Bool :=
  ["pending", "confirmed", "processing"].contains o.status

/-! ### Order numbers (pre-save hook) -/

/-- One decimal digit as a character. -/
def digitChar (d : Nat) : Char := Char.ofNat (48 + d)

/-- Decimal digits of `n`, most significant first; structural recursion
on a fuel bound so that it reduces by computation. -/
def natCharsAux : Nat → Nat → List Char
  | 0, _ => []
  | fuel + 1, n =>
    if n < 10 then [digitChar n]
    else natCharsAux fuel (n / 10) ++ [digitChar (n % 10)]

/-- Model of JavaScript `String(n)` for a non-negative integer: its
decimal digits, most significant first. -/
def natChars (n : Nat) : List Char := natCharsAux (n + 1) n

/-- Model of `String.prototype.padStart(width, c)`. -/
def padChars (l : List Char) (width : Nat) (c : Char) : List Char :=
  List.replicate (width - l.length) c ++ l

/-- The order number built by the pre-save hook from the current
document count: `ORD-<dateStr>-<String(count + 1).padStart(6, '0')>`. -/
def mkOrderNumber (dateStr : String) (count : Nat) : String :=
  "ORD-" ++ dateStr ++ "-" ++ String.mk (padChars (natChars (count + 1)) 6 '0')

/-- The `yyyymmdd` date string the hook formats (`year`, 1-based `month`
and `day` as JavaScript renders them). -/
def mkDateStr (year month day : Nat) : String :=
  String.mk (natChars year ++ padChars (natChars month) 2 '0' ++ padChars (natChars day) 2 '0')

/-- The `orderSchema.pre('save')` hook followed by the save itself:
assigns `orderNumber` from the live document count when absent, appends
a history entry when the status path is marked modified, and the save
clears the dirty mark. -/
def saveOrder (count : Nat) (dateStr : String) (now : Nat) (o : Order) : Order :=
  let o1 := if o.orderNumber.isNone
            then { o with orderNumber := some (mkOrderNumber dateStr count) } else o
  let o2 := if o1.statusModified
            then { o1 with statusHistory :=
                            o1.statusHistory ++ [{ status := o1.status, date := now, note := none }] }
            else o1
  { o2 with statusModified := false }

/-- Method `orderSchema.methods.updateStatus`. -/
def Order.updateStatus (o : Order) (newStatus : String) (note : Option String) (now : Nat) :
    Order :=
  let o1 := o.setStatus newStatus
  let o2 := { o1 with statusHistory :=
                        o1.statusHistory ++ [{ status := newStatus, date := now, note := note }] }
  if newStatus == "shipped" then
    { o2 with shipping := { o2.shipping with shippedAt := some now } }
  else if newStatus == "delivered" then
    { o2 with shipping := { o2.shipping with deliveredAt := some now } }
  else o2

/-- Method `orderSchema.methods.cancel` (the controller only calls it after
checking `canCancel`, and it throws otherwise, so it is modelled on the
guarded path). -/
def Order.cancelMethod (o : Order) (reason : Option String) (cancelledBy : Nat) (now : Nat) :
    Order :=
  { o.setStatus "cancelled" with
      cancellation := some { reason := reason, cancelledAt := now, cancelledBy := cancelledBy } }

/-! ### Checkout (`createOrder` in order.controller.js) -/

/-- The body of `createOrder`'s stock-validation loop for one cart line:
resolve the populated product (a missing product would throw before any
write, modelled as an error) and the (size, color) variant, fail with the
insufficient-stock message when the variant is absent or under-stocked,
and otherwise produce the frozen `OrderItem` snapshot. -/
def buildOrderItem1 (ps : List Product) (it : CartItem) : Except String OrderItem :=
  match findProduct ps it.product with
  | none => Except.error "Product not found"
  | some p =>
    match p.findVariant it.size it.color with
    | none => Except.error
        ("Insufficient stock for " ++ p.name ++ " (" ++ it.size ++ "/" ++ it.color ++ ")")
    | some v =>
      if v.stock < (it.quantity : Int) then
        Except.error
          ("Insufficient stock for " ++ p.name ++ " (" ++ it.size ++ "/" ++ it.color ++ ")")
      else
        Except.ok
          { product := p.id, name := p.name, image := p.images.headD "",
            size := it.size, color := it.color, sku := it.sku,
            quantity := it.quantity, price := it.price,
            total := it.price * (it.quantity : ℚ) }

/-- The stock-validation / snapshot loop of `createOrder`: the first
failing line aborts with its error, otherwise the `OrderItem` snapshots
are collected in cart order. -/
def buildOrderItems (ps : List Product) : List CartItem → Except String (List OrderItem)
  | [] => Except.ok []
  | it :: rest =>
    match buildOrderItem1 ps it with
    | Except.error e => Except.error e
    | Except.ok oi =>
      match buildOrderItems ps rest with
      | Except.error e => Except.error e
      | Except.ok ois => Except.ok (oi :: ois)

/-- Whether a cart line passes `createOrder`'s stock validation: its
product resolves, a (size, color) variant exists, and that variant's
stock covers the requested quantity. -/
def availOkb (ps : List Product) (it : CartItem) : Bool :=
  ((stockOf ps it.product it.size it.color).map
    (fun st => decide ((it.quantity : Int) ≤ st))).getD false

/-- The success tail of `createOrder`: build the order document,
`Order.create` it (which runs the pre-save hook), run the per-item stock
decrement loop, and clear the cart. -/
def checkoutSuccess (ps : List Product) (cart : Cart) (user : Nat) (pm : String)
    (count : Nat) (dateStr : String) (now : Nat) (orderItems : List OrderItem) :
    (List Product × Option Cart × Option Order) × Option String :=
  let proto : Order :=
    { orderNumber := none, user := user, items := orderItems,
      payment := { method := pm,
                   status := if pm == "cod" then "pending" else "processing" },
      pricing := { subtotal := cart.subtotal, discount := cart.discount,
                   couponCode := cart.couponCode, shipping := cart.shipping,
                   tax := cart.tax, total := cart.total },
      status := "pending", statusModified := false, statusHistory := [],
      shipping := { carrier := none, trackingNumber := none,
                    shippedAt := none, deliveredAt := none },
      cancellation := none }
  let order := saveOrder count dateStr now proto
  let ps2 := updateStockAll ps (cart.items.map CartItem.toLine) (-1)
  ((ps2, some cart.clearCart, some order), none)

/-- Controller `createOrder` (checkout) on an existing cart: empty-cart
guard, stock validation, then the success tail. -/
def createOrderCart (ps : List Product) (cart : Cart) (user : Nat) (pm : String)
    (count : Nat) (dateStr : String) (now : Nat) :
    (List Product × Option Cart × Option Order) × Option String :=
  if cart.items.isEmpty then ((ps, some cart, none), some "Your cart is empty")
  else
    match buildOrderItems ps cart.items with
    | Except.error msg => ((ps, some cart, none), some msg)
    | Except.ok orderItems => checkoutSuccess ps cart user pm count dateStr now orderItems

/-- Controller `createOrder` (checkout) as a transition on
(catalog, cart): returns the post-state catalog, the post-state cart (if
one existed), the created order (if any) and the error message (if any).
`count` is `Order.countDocuments()` at save time, `dateStr` / `now` the
current date.  An error return models the controller answering 4xx (or
throwing) before persisting anything, so the pre-state is returned
untouched. -/
def createOrder (ps : List Product) (cart? : Option Cart) (user : Nat)
    (paymentMethod : String) (count : Nat) (dateStr : String) (now : Nat) :
    (List Product × Option Cart × Option Order) × Option String :=
  match cart? with
  | none => ((ps, none, none), some "Your cart is empty")
  | some cart => createOrderCart ps cart user paymentMethod count dateStr now

/-! ### Cancellation (`cancelOrder` in order.controller.js) -/

/-- Controller `cancelOrder` as a transition on (catalog, order): guard on
`canCancel`, then `order.cancel(...)`, the per-item stock restore loop,
and `order.save()` (which runs the pre-save hook). -/
def cancelOrder (ps : List Product) (o : Order) (reason : Option String) (userId : Nat)
    (now : Nat) (count : Nat) (dateStr : String) :
    (List Product × Order) × Option String :=
  if ! o.canCancel then ((ps, o), some "This order cannot be cancelled")
  else
    let o1 := o.cancelMethod reason userId now
    let ps2 := updateStockAll ps (o.items.map OrderItem.toLine) 1
    let o2 := saveOrder count dateStr now o1
    ((ps2, o2), none)


/-! ### Checkout lemmas -/

theorem availOkb_eq_true_iff (ps : List Product) (it : CartItem) :
    availOkb ps it = true ↔
      ∃ st, stockOf ps it.product it.size it.color = some st ∧ (it.quantity : Int) ≤ st := by
  unfold availOkb
  cases h : stockOf ps it.product it.size it.color <;> simp

theorem availOkb_toLine_resolves (ps : List Product) (it : CartItem)
    (h : availOkb ps it = true) : resolvesb ps it.toLine = true := by
  obtain ⟨st, hst, _⟩ := (availOkb_eq_true_iff ps it).mp h
  rw [resolvesb]
  show (stockOf ps it.product it.size it.color).isSome = true
  rw [hst]
  rfl

theorem stockOf_some_elim (ps : List Product) (pid : Nat) (s c : String) (st : Int)
    (h : stockOf ps pid s c = some st) :
    ∃ p v, findProduct ps pid = some p ∧ p.findVariant s c = some v ∧ v.stock = st := by
  rw [stockOf] at h
  cases hfp : findProduct ps pid with
  | none => rw [hfp] at h; cases h
  | some p =>
    rw [hfp, Option.some_bind] at h
    cases hfv : p.findVariant s c with
    | none => rw [hfv] at h; cases h
    | some v =>
      rw [hfv, Option.map_some'] at h
      exact ⟨p, v, by simp [hfp], by simp [hfv], (Option.some.injEq _ _).mp h⟩

theorem buildOrderItem1_ok_iff (ps : List Product) (it : CartItem) :
    (∃ oi, buildOrderItem1 ps it = Except.ok oi) ↔ availOkb ps it = true := by
  unfold buildOrderItem1 availOkb stockOf
  cases hfp : findProduct ps it.product with
  | none => simp [hfp]
  | some p =>
    cases hfv : p.findVariant it.size it.color with
    | none => simp [hfv]
    | some v =>
      by_cases hs : v.stock < (it.quantity : Int)
      · simp [hfv, hs]
      · simp [hfv, hs]
        omega

theorem buildOrderItems_ok_of (ps : List Product) (items : List CartItem)
    (h : ∀ it ∈ items, availOkb ps it = true) :
    ∃ ois, buildOrderItems ps items = Except.ok ois := by
  induction items with
  | nil => exact ⟨[], rfl⟩
  | cons it rest ih =>
    obtain ⟨oi, hoi⟩ :=
      (buildOrderItem1_ok_iff ps it).mpr (h it (List.mem_cons_self it rest))
    obtain ⟨ois, hois⟩ := ih (fun j hj => h j (List.mem_cons_of_mem _ hj))
    refine ⟨oi :: ois, ?_⟩
    unfold buildOrderItems
    rw [hoi, hois]

theorem buildOrderItems_forall_of_ok (ps : List Product) (items : List CartItem)
    (ois : List OrderItem) (h : buildOrderItems ps items = Except.ok ois) :
    ∀ it ∈ items, availOkb ps it = true := by
  induction items generalizing ois with
  | nil => intro it hit; cases hit
  | cons j rest ih =>
    intro it hit
    unfold buildOrderItems at h
    cases hb : buildOrderItem1 ps j with
    | error e =>
      rw [hb] at h
      exact absurd (show (Except.error e : Except String (List OrderItem))
        = Except.ok ois from h) (by simp)
    | ok oi =>
      rw [hb] at h
      cases hrec : buildOrderItems ps rest with
      | error e =>
        rw [hrec] at h
        exact absurd (show (Except.error e : Except String (List OrderItem))
          = Except.ok ois from h) (by simp)
      | ok ois2 =>
        rw [hrec] at h
        rcases List.mem_cons.mp hit with he | hm
        · subst he
          exact (buildOrderItem1_ok_iff ps it).mp ⟨oi, hb⟩
        · exact ih ois2 hrec it hm

/-- C7: checkout with no cart, or with a cart holding no items, fails
with the empty-cart error before any other step: no order is created,
no stock is touched, and the cart is unchanged. -/
theorem claim_C7_empty_cart_checkout (ps : List Product) (user : Nat) (pm : String)
    (count : Nat) (dateStr : String) (now : Nat) :
    createOrder ps none user pm count dateStr now
      = ((ps, none, none), some "Your cart is empty") ∧
    ∀ cart : Cart, cart.items = [] →
      createOrder ps (some cart) user pm count dateStr now
        = ((ps, some cart, none), some "Your cart is empty") := by
  refine ⟨rfl, ?_⟩
  intro cart h
  show createOrderCart ps cart user pm count dateStr now = _
  unfold createOrderCart
  rw [if_pos (by rw [h]; rfl)]

/-- Witness for C7 at a concrete catalog and itemless cart. -/
theorem claim_C7_empty_cart_checkout_witness :
    createOrder [] (some emptyCartWithDiscount) 1 "cod" 0 "20240101" 0
      = (([], some emptyCartWithDiscount, none), some "Your cart is empty") :=
  (claim_C7_empty_cart_checkout [] 1 "cod" 0 "20240101" 0).2 emptyCartWithDiscount rfl

/-- A one-product catalog for the checkout witness: product 7 with a
single variant (M, red) holding stock 5. -/
def demoProducts : List Product :=
  [{ id := 7, name := "Tee", images := ["img.jpg"],
     variants := [{ size := "M", color := "red", sku := some "SKU1", stock := 5,
                    price := none }],
     totalStock := 5 }]

/-- A cart ordering quantity 2 of that variant. -/
def demoCart : Cart :=
  { user := 9,
    items := [{ id := 0, product := 7, size := "M", color := "red", sku := some "SKU1",
                quantity := 2, price := 500 }],
    subtotal := 1000, discount := 0, couponCode := none,
    shipping := 0, tax := 180, total := 1180 }

/-! ### Order state-machine lemmas -/

theorem canCancel_iff (o : Order) :
    o.canCancel = true ↔
      (o.status = "pending" ∨ o.status = "confirmed" ∨ o.status = "processing") := by
  unfold Order.canCancel
  simp [List.contains]

theorem setStatus_of_ne (o : Order) (s : String) (h : (o.status == s) = false) :
    o.setStatus s = { o with status := s, statusModified := true } := by
  unfold Order.setStatus
  simp [h]

theorem saveOrder_status (count : Nat) (d : String) (now : Nat) (o : Order) :
    (saveOrder count d now o).status = o.status := by
  unfold saveOrder
  by_cases hn : o.orderNumber.isNone = true <;>
    by_cases hm : o.statusModified = true <;> simp [hn, hm]

theorem saveOrder_items (count : Nat) (d : String) (now : Nat) (o : Order) :
    (saveOrder count d now o).items = o.items := by
  unfold saveOrder
  by_cases hn : o.orderNumber.isNone = true <;>
    by_cases hm : o.statusModified = true <;> simp [hn, hm]

theorem saveOrder_cancellation (count : Nat) (d : String) (now : Nat) (o : Order) :
    (saveOrder count d now o).cancellation = o.cancellation := by
  unfold saveOrder
  by_cases hn : o.orderNumber.isNone = true <;>
    by_cases hm : o.statusModified = true <;> simp [hn, hm]

theorem saveOrder_shipping (count : Nat) (d : String) (now : Nat) (o : Order) :
    (saveOrder count d now o).shipping = o.shipping := by
  unfold saveOrder
  by_cases hn : o.orderNumber.isNone = true <;>
    by_cases hm : o.statusModified = true <;> simp [hn, hm]

theorem saveOrder_statusHistory_modified (count : Nat) (d : String) (now : Nat) (o : Order)
    (h : o.statusModified = true) :
    (saveOrder count d now o).statusHistory
      = o.statusHistory ++ [{ status := o.status, date := now, note := none }] := by
  unfold saveOrder
  by_cases hn : o.orderNumber.isNone = true <;> simp [hn, h]

theorem saveOrder_statusHistory_unmodified (count : Nat) (d : String) (now : Nat) (o : Order)
    (h : o.statusModified = false) :
    (saveOrder count d now o).statusHistory = o.statusHistory := by
  unfold saveOrder
  by_cases hn : o.orderNumber.isNone = true <;> simp [hn, h]

theorem saveOrder_orderNumber_some (count : Nat) (d : String) (now : Nat) (o : Order)
    (str : String) (h : o.orderNumber = some str) :
    (saveOrder count d now o).orderNumber = some str := by
  unfold saveOrder
  by_cases hm : o.statusModified = true <;> simp [h, hm]

theorem saveOrder_orderNumber_none (count : Nat) (d : String) (now : Nat) (o : Order)
    (h : o.orderNumber = none) :
    (saveOrder count d now o).orderNumber = some (mkOrderNumber d count) := by
  unfold saveOrder
  by_cases hm : o.statusModified = true <;> simp [h, hm]

theorem cancelMethod_fields (o : Order) (reason : Option String) (userId now : Nat)
    (h : (o.status == "cancelled") = false) :
    (o.cancelMethod reason userId now).status = "cancelled" ∧
    (o.cancelMethod reason userId now).statusModified = true ∧
    (o.cancelMethod reason userId now).statusHistory = o.statusHistory ∧
    (o.cancelMethod reason userId now).items = o.items ∧
    (o.cancelMethod reason userId now).cancellation
      = some { reason := reason, cancelledAt := now, cancelledBy := userId } := by
  unfold Order.cancelMethod
  rw [setStatus_of_ne o _ h]
  exact ⟨rfl, rfl, rfl, rfl, rfl⟩

/-- A pending order for product 7's (M, red) variant, quantity 2, used
as the cancellation witness input. -/
def demoOrder : Order :=
  { orderNumber := some "ORD-20240101-000001", user := 9,
    items := [{ product := 7, name := "Tee", image := "img.jpg", size := "M", color := "red",
                sku := some "SKU1", quantity := 2, price := 500, total := 1000 }],
    payment := { method := "cod", status := "pending" },
    pricing := { subtotal := 1000, discount := 0, couponCode := none, shipping := 0,
                 tax := 180, total := 1180 },
    status := "pending", statusModified := false, statusHistory := [],
    shipping := { carrier := none, trackingNumber := none, shippedAt := none,
                  deliveredAt := none },
    cancellation := none }

theorem updateStatus_fields (o : Order) (ns : String) (note : Option String) (now : Nat)
    (h : (o.status == ns) = false) :
    (o.updateStatus ns note now).statusHistory
      = o.statusHistory ++ [{ status := ns, date := now, note := note }] ∧
    (o.updateStatus ns note now).status = ns ∧
    (o.updateStatus ns note now).statusModified = true ∧
    (o.updateStatus ns note now).shipping.shippedAt
      = (if ns = "shipped" then some now else o.shipping.shippedAt) ∧
    (o.updateStatus ns note now).shipping.deliveredAt
      = (if ns = "delivered" then some now else o.shipping.deliveredAt) := by
  unfold Order.updateStatus
  rw [setStatus_of_ne _ _ h]
  by_cases hs : (ns == "shipped") = true
  · have hs2 : ns = "shipped" := beq_iff_eq.mp hs
    simp [hs, hs2]
  · by_cases hd : (ns == "delivered") = true
    · have hd2 : ns = "delivered" := beq_iff_eq.mp hd
      simp [Bool.eq_false_iff.mpr hs, hd, hd2]
    · have hs2 : ¬ ns = "shipped" := by
        intro hcon; exact hs (beq_iff_eq.mpr hcon)
      have hd2 : ¬ ns = "delivered" := by
        intro hcon; exact hd (beq_iff_eq.mpr hcon)
      simp [Bool.eq_false_iff.mpr hs, Bool.eq_false_iff.mpr hd, hs2, hd2]

theorem createOrder_history_empty (ps : List Product) (cart : Cart) (user : Nat)
    (pm : String) (count : Nat) (d : String) (now : Nat) (o2 : Order)
    (h : (createOrder ps (some cart) user pm count d now).1.2.2 = some o2) :
    o2.statusHistory = [] := by
  have hc : (createOrderCart ps cart user pm count d now).1.2.2 = some o2 := h
  unfold createOrderCart at hc
  by_cases hemp : cart.items.isEmpty = true
  · rw [if_pos hemp] at hc; cases hc
  · rw [if_neg hemp] at hc
    cases hb : buildOrderItems ps cart.items with
    | error e =>
      rw [hb] at hc
      exact absurd (show (none : Option Order) = some o2 from hc) (by simp)
    | ok ois =>
      rw [hb] at hc
      have hc2 : (checkoutSuccess ps cart user pm count d now ois).1.2.2 = some o2 := hc
      unfold checkoutSuccess at hc2
      simp only [Option.some.injEq] at hc2
      rw [← hc2, saveOrder_statusHistory_unmodified]
      rfl

/-- C5 counterexample: a real status transition driven through
`updateStatus` followed by `save` appends TWO statusHistory entries (the
explicit one and then the pre-save hook's duplicate), not exactly one;
and an order fresh out of checkout has an empty statusHistory, with no
creation entry (the defaulted initial status is never marked modified,
so the hook does not log it). -/
theorem claim_C5_counterexample :
    (saveOrder 3 "20240102" 5 (demoOrder.updateStatus "confirmed" (some "ok") 5)).statusHistory.length
      = demoOrder.statusHistory.length + 2 ∧
    ((createOrder demoProducts (some demoCart) 9 "cod" 0 "20240101" 0).1.2.2.map
        (fun o => o.statusHistory)) = some [] := by
  exact ⟨rfl, rfl⟩

/-- C5 amended: statusHistory starts empty at creation (the pre-save
hook only logs saves whose status path is marked modified, and the
schema default is not); a genuine transition through `updateStatus`
followed by `save` appends two entries — the note-carrying one pushed by
`updateStatus` and the hook's duplicate; `cancel` followed by `save`
appends exactly one; entering shipped stamps `shippedAt` and entering
delivered stamps `deliveredAt`. -/
theorem claim_C5_status_history (o : Order) (ns : String) (note : Option String)
    (now count : Nat) (d : String) (h : ¬ o.status = ns) :
    ((saveOrder count d now (o.updateStatus ns note now)).statusHistory
      = o.statusHistory ++ [{ status := ns, date := now, note := note },
                            { status := ns, date := now, note := none }]) ∧
    ((o.updateStatus ns note now).shipping.shippedAt
      = (if ns = "shipped" then some now else o.shipping.shippedAt)) ∧
    ((o.updateStatus ns note now).shipping.deliveredAt
      = (if ns = "delivered" then some now else o.shipping.deliveredAt)) ∧
    (o.canCancel = true → ∀ reason userId,
      (saveOrder count d now (o.cancelMethod reason userId now)).statusHistory
        = o.statusHistory ++ [{ status := "cancelled", date := now, note := none }]) ∧
    (∀ ps cart user pm o2,
      (createOrder ps (some cart) user pm count d now).1.2.2 = some o2 →
        o2.statusHistory = []) := by
  have hne : (o.status == ns) = false := beq_eq_false_iff_ne.mpr h
  have huf := updateStatus_fields o ns note now hne
  refine ⟨?_, huf.2.2.2.1, huf.2.2.2.2, ?_, ?_⟩
  · rw [saveOrder_statusHistory_modified _ _ _ _ huf.2.2.1, huf.1, huf.2.1,
      List.append_assoc]
    rfl
  · intro hc reason userId
    have hnc : (o.status == "cancelled") = false := by
      rcases (canCancel_iff o).mp hc with hx | hx | hx <;>
        rw [beq_eq_false_iff_ne, hx] <;> decide
    have hcf := cancelMethod_fields o reason userId now hnc
    rw [saveOrder_statusHistory_modified _ _ _ _ hcf.2.1, hcf.2.2.1, hcf.1]
  · intro ps cart user pm o2 h2
    exact createOrder_history_empty ps cart user pm count d now o2 h2

/-- Witness for the amended C5: transitioning the pending demo order to
shipped and saving yields exactly the two appended entries and stamps
`shippedAt`. -/
theorem claim_C5_status_history_witness :
    (saveOrder 3 "20240102" 5 (demoOrder.updateStatus "shipped" (some "sent") 5)).statusHistory
      = [{ status := "shipped", date := 5, note := some "sent" },
         { status := "shipped", date := 5, note := none }] ∧
    (demoOrder.updateStatus "shipped" (some "sent") 5).shipping.shippedAt = some 5 := by
  have h := claim_C5_status_history demoOrder "shipped" (some "sent") 5 3 "20240102"
    (by decide)
  refine ⟨?_, ?_⟩
  · rw [h.1]; rfl
  · rw [h.2.1]; rfl


/-! ### Order number uniqueness -/

/-- The decimal value read back from a digit string. -/
def charsVal (l : List Char) : Nat :=
  l.foldl (fun a c => 10 * a + (c.toNat - 48)) 0

theorem digitChar_toNat (d : Nat) (h : d < 10) : (digitChar d).toNat = 48 + d := by
  interval_cases d <;> decide

theorem digitChar_ne_dash (d : Nat) (h : d < 10) : digitChar d ≠ '-' := by
  interval_cases d <;> decide

theorem natCharsAux_foldl (fuel : Nat) :
    ∀ n a, n < fuel →
      (natCharsAux fuel n).foldl (fun a c => 10 * a + (c.toNat - 48)) a
        = a * 10 ^ (natCharsAux fuel n).length + n := by
  induction fuel with
  | zero => intro n a h; omega
  | succ f ih =>
    intro n a h
    by_cases h10 : n < 10
    · simp only [natCharsAux, if_pos h10, List.foldl_cons, List.foldl_nil,
        List.length_singleton]
      rw [digitChar_toNat n h10]
      ring_nf
      omega
    · have hdiv : n / 10 < f := by
        have h1 : n / 10 < n := Nat.div_lt_self (by omega) (by omega)
        omega
      simp only [natCharsAux, if_neg h10, List.foldl_append, List.foldl_cons,
        List.foldl_nil, List.length_append, List.length_singleton]
      rw [ih (n / 10) a hdiv]
      rw [digitChar_toNat (n % 10) (Nat.mod_lt n (by omega))]
      have hnm : 10 * (n / 10) + n % 10 = n := Nat.div_add_mod n 10
      rw [pow_succ]
      ring_nf
      omega

theorem charsVal_natChars (n : Nat) : charsVal (natChars n) = n := by
  unfold charsVal natChars
  rw [natCharsAux_foldl (n + 1) n 0 (by omega)]
  ring

theorem natCharsAux_mem_digit (fuel : Nat) :
    ∀ n c, n < fuel → c ∈ natCharsAux fuel n → ∃ d, d < 10 ∧ c = digitChar d := by
  induction fuel with
  | zero => intro n c h; omega
  | succ f ih =>
    intro n c h hc
    by_cases h10 : n < 10
    · rw [natCharsAux, if_pos h10] at hc
      simp only [List.mem_singleton] at hc
      exact ⟨n, h10, hc⟩
    · have hdiv : n / 10 < f := by
        have h1 : n / 10 < n := Nat.div_lt_self (by omega) (by omega)
        omega
      rw [natCharsAux, if_neg h10] at hc
      rcases List.mem_append.mp hc with hm | hm
      · exact ih (n / 10) c hdiv hm
      · simp only [List.mem_singleton] at hm
        exact ⟨n % 10, Nat.mod_lt n (by omega), hm⟩

theorem natChars_no_dash (n : Nat) (c : Char) (hc : c ∈ natChars n) : c ≠ '-' := by
  obtain ⟨d, hd, he⟩ := natCharsAux_mem_digit (n + 1) n c (by omega) hc
  rw [he]
  exact digitChar_ne_dash d hd

theorem foldl_replicate_zero (k : Nat) :
    (List.replicate k ('0')).foldl (fun a c => 10 * a + (c.toNat - 48)) 0 = 0 := by
  induction k with
  | zero => rfl
  | succ m ih =>
    rw [List.replicate_succ, List.foldl_cons]
    exact ih

theorem charsVal_padChars_zero (l : List Char) (w : Nat) :
    charsVal (padChars l w ('0')) = charsVal l := by
  unfold charsVal padChars
  rw [List.foldl_append, foldl_replicate_zero]

theorem padChars_mem (l : List Char) (w : Nat) (p c : Char)
    (hc : c ∈ padChars l w p) : c = p ∨ c ∈ l := by
  unfold padChars at hc
  rcases List.mem_append.mp hc with hm | hm
  · exact Or.inl (List.eq_of_mem_replicate hm)
  · exact Or.inr hm

theorem append_dash_inj (l1 : List Char) :
    ∀ l2 r1 r2 : List Char, ¬ '-' ∈ l1 → ¬ '-' ∈ l2 →
      l1 ++ '-' :: r1 = l2 ++ '-' :: r2 → l1 = l2 ∧ r1 = r2 := by
  induction l1 with
  | nil =>
    intro l2 r1 r2 _ h2 he
    cases l2 with
    | nil =>
      simp only [List.nil_append, List.cons.injEq] at he
      exact ⟨rfl, he.2⟩
    | cons y ys =>
      simp only [List.nil_append, List.cons_append, List.cons.injEq] at he
      exact absurd (by rw [he.1]; exact List.mem_cons_self y ys) h2
  | cons x xs ih =>
    intro l2 r1 r2 h1 h2 he
    cases l2 with
    | nil =>
      simp only [List.cons_append, List.nil_append, List.cons.injEq] at he
      exact absurd (by rw [← he.1]; exact List.mem_cons_self x xs) h1
    | cons y ys =>
      simp only [List.cons_append, List.cons.injEq] at he
      have hx : ¬ '-' ∈ xs := fun hm => h1 (List.mem_cons_of_mem x hm)
      have hy : ¬ '-' ∈ ys := fun hm => h2 (List.mem_cons_of_mem y hm)
      obtain ⟨e1, e2⟩ := ih ys r1 r2 hx hy he.2
      exact ⟨by rw [he.1, e1], e2⟩


theorem mkDateStr_no_dash (y m d : Nat) (c : Char) (hc : c ∈ (mkDateStr y m d).data) :
    c ≠ '-' := by
  unfold mkDateStr at hc
  rw [show (String.mk (natChars y ++ padChars (natChars m) 2 '0'
      ++ padChars (natChars d) 2 '0')).data
    = natChars y ++ padChars (natChars m) 2 '0' ++ padChars (natChars d) 2 '0' from rfl] at hc
  rcases List.mem_append.mp hc with hm | hm
  · rcases List.mem_append.mp hm with hm2 | hm2
    · exact natChars_no_dash y c hm2
    · rcases padChars_mem _ _ _ _ hm2 with he | hm3
      · rw [he]; decide
      · exact natChars_no_dash m c hm3
  · rcases padChars_mem _ _ _ _ hm with he | hm3
    · rw [he]; decide
    · exact natChars_no_dash d c hm3

theorem mkOrderNumber_data (ds : String) (c : Nat) :
    (mkOrderNumber ds c).data
      = ['O', 'R', 'D'] ++ '-' :: (ds.data ++ '-' :: padChars (natChars (c + 1)) 6 '0') := by
  unfold mkOrderNumber
  rw [show ("ORD-" ++ ds ++ "-" ++ String.mk (padChars (natChars (c + 1)) 6 '0')).data
    = "ORD-".data ++ ds.data ++ "-".data ++ padChars (natChars (c + 1)) 6 '0' from rfl]
  simp

/-- The order-number scheme is injective in the document count, whatever
dates the two numbers were formatted on. -/
theorem mkOrderNumber_inj_count (y1 m1 d1 c1 y2 m2 d2 c2 : Nat)
    (h : mkOrderNumber (mkDateStr y1 m1 d1) c1 = mkOrderNumber (mkDateStr y2 m2 d2) c2) :
    c1 = c2 := by
  have hdata := congrArg String.data h
  rw [mkOrderNumber_data, mkOrderNumber_data] at hdata
  have h1 := (append_dash_inj ['O', 'R', 'D'] ['O', 'R', 'D'] _ _
    (by decide) (by decide) hdata).2
  have h2 := (append_dash_inj (mkDateStr y1 m1 d1).data (mkDateStr y2 m2 d2).data _ _
    (fun hm => mkDateStr_no_dash y1 m1 d1 _ hm rfl)
    (fun hm => mkDateStr_no_dash y2 m2 d2 _ hm rfl) h1).2
  have hv := congrArg charsVal h2
  rw [charsVal_padChars_zero, charsVal_padChars_zero, charsVal_natChars,
    charsVal_natChars] at hv
  omega

/-- Model of `Order.create` against a store holding `orders` documents: the save
hook runs with `countDocuments() = orders.length` and the creation-time
date, and the new document is appended. -/
def createAndSave (orders : List Order) (proto : Order) (y m d now : Nat) : List Order :=
  orders ++ [saveOrder orders.length (mkDateStr y m d) now proto]

/-- A sequence of order creations (proto, creation date, timestamp),
replayed against an initially given store. -/
def runCreates : List Order → List (Order × (Nat × Nat × Nat) × Nat) → List Order
  | acc, [] => acc
  | acc, (proto, (y, m, d), now) :: evs =>
    runCreates (createAndSave acc proto y m d now) evs

/-- Store shape invariant: position `i` (counting from `n`) carries the
order number generated from count `n + i` on some date. -/
def numberedFrom : Nat → List Order → Prop
  | _, [] => True
  | n, o :: rest =>
    (∃ y m d, o.orderNumber = some (mkOrderNumber (mkDateStr y m d) n)) ∧
      numberedFrom (n + 1) rest

theorem numberedFrom_mem (acc : List Order) :
    ∀ n o, numberedFrom n acc → o ∈ acc →
      ∃ y m d k, n ≤ k ∧ o.orderNumber = some (mkOrderNumber (mkDateStr y m d) k) := by
  induction acc with
  | nil => intro n o _ hm; cases hm
  | cons p rest ih =>
    intro n o hn hm
    rcases List.mem_cons.mp hm with he | hm2
    · obtain ⟨y, m, d, hp⟩ := hn.1
      exact ⟨y, m, d, n, le_refl n, by rw [he]; exact hp⟩
    · obtain ⟨y, m, d, k, hk, hp⟩ := ih (n + 1) o hn.2 hm2
      exact ⟨y, m, d, k, by omega, hp⟩

theorem numberedFrom_nodup (acc : List Order) :
    ∀ n, numberedFrom n acc → (acc.map (fun o => o.orderNumber)).Nodup := by
  induction acc with
  | nil => intro n _; exact List.nodup_nil
  | cons p rest ih =>
    intro n hn
    rw [List.map_cons, List.nodup_cons]
    refine ⟨?_, ih (n + 1) hn.2⟩
    intro hmem
    obtain ⟨o, hom, hoe⟩ := List.mem_map.mp hmem
    obtain ⟨y, m, d, hp⟩ := hn.1
    obtain ⟨y2, m2, d2, k, hk, hp2⟩ := numberedFrom_mem rest (n + 1) o hn.2 hom
    rw [hp2, hp] at hoe
    have := mkOrderNumber_inj_count y2 m2 d2 k y m d n (by
      have := (Option.some.injEq _ _).mp hoe
      exact this)
    omega

theorem numberedFrom_append (acc : List Order) :
    ∀ n o2, numberedFrom n acc →
      (∃ y m d, o2.orderNumber = some (mkOrderNumber (mkDateStr y m d) (n + acc.length))) →
      numberedFrom n (acc ++ [o2]) := by
  induction acc with
  | nil =>
    intro n o2 _ h2
    refine ⟨?_, trivial⟩
    simpa using h2
  | cons p rest ih =>
    intro n o2 hn h2
    refine ⟨hn.1, ?_⟩
    apply ih (n + 1) o2 hn.2
    obtain ⟨y, m, d, he⟩ := h2
    refine ⟨y, m, d, ?_⟩
    rw [he]
    have : n + (p :: rest).length = n + 1 + rest.length := by
      simp [List.length_cons]
      omega
    rw [this]

theorem runCreates_numbered (evs : List (Order × (Nat × Nat × Nat) × Nat)) :
    ∀ acc, (∀ e ∈ evs, e.1.orderNumber = none) → numberedFrom 0 acc →
      numberedFrom 0 (runCreates acc evs) := by
  induction evs with
  | nil => intro acc _ hn; exact hn
  | cons e rest ih =>
    intro acc hall hn
    obtain ⟨proto, ⟨y, m, d⟩, now⟩ := e
    show numberedFrom 0 (runCreates (createAndSave acc proto y m d now) rest)
    apply ih _ (fun e2 he2 => hall e2 (List.mem_cons_of_mem _ he2))
    apply numberedFrom_append acc 0 _ hn
    refine ⟨y, m, d, ?_⟩
    rw [saveOrder_orderNumber_none _ _ _ _ (hall _ (List.mem_cons_self _ _))]
    rw [Nat.zero_add]


/-- C8: the pre-save hook assigns `orderNumber` as
`ORD-<yyyymmdd>-<String(count + 1).padStart(6, '0')>` exactly when the
field is absent; a save of an already-numbered order never changes it;
and replaying any sequence of order creations against an initially empty
store yields pairwise-distinct order numbers (the counts 1, 2, ... are
strictly increasing because orders are only ever inserted, and the
scheme is injective in the count across dates). -/
theorem claim_C8_order_number_unique (proto : Order) (count y m d now : Nat) (str : String)
    (evs : List (Order × (Nat × Nat × Nat) × Nat)) :
    (proto.orderNumber = none →
      (saveOrder count (mkDateStr y m d) now proto).orderNumber
        = some (mkOrderNumber (mkDateStr y m d) count)) ∧
    (proto.orderNumber = some str →
      (saveOrder count (mkDateStr y m d) now proto).orderNumber = some str) ∧
    ((∀ e ∈ evs, e.1.orderNumber = none) →
      ((runCreates [] evs).map (fun o => o.orderNumber)).Nodup) := by
  refine ⟨saveOrder_orderNumber_none count (mkDateStr y m d) now proto,
    saveOrder_orderNumber_some count (mkDateStr y m d) now proto str, ?_⟩
  intro hall
  exact numberedFrom_nodup (runCreates [] evs) 0 (runCreates_numbered evs [] hall trivial)

/-- A not-yet-saved order document (no order number assigned). -/
def protoOrder : Order := { demoOrder with orderNumber := none }

/-- Witness for C8: the hook numbers a fresh document from the count,
re-saving a numbered order keeps its number, and two successive
creations get distinct numbers. -/
theorem claim_C8_order_number_unique_witness :
    (saveOrder 0 (mkDateStr 2024 1 2) 7 protoOrder).orderNumber
      = some (mkOrderNumber (mkDateStr 2024 1 2) 0) ∧
    (saveOrder 3 (mkDateStr 2024 1 3) 9 demoOrder).orderNumber
      = some "ORD-20240101-000001" ∧
    ((runCreates [] [(protoOrder, (2024, 1, 2), 7),
        (protoOrder, (2024, 1, 2), 8)]).map (fun o => o.orderNumber)).Nodup := by
  refine ⟨(claim_C8_order_number_unique protoOrder 0 2024 1 2 7 "ORD-20240101-000001"
      []).1 rfl,
    (claim_C8_order_number_unique demoOrder 3 2024 1 3 9 "ORD-20240101-000001"
      []).2.1 rfl,
    (claim_C8_order_number_unique protoOrder 0 2024 1 2 7 "ORD-20240101-000001"
      [(protoOrder, (2024, 1, 2), 7), (protoOrder, (2024, 1, 2), 8)]).2.2 ?_⟩
  intro e he
  rcases List.mem_cons.mp he with he1 | he1
  · rw [he1]; rfl
  · rcases List.mem_cons.mp he1 with he2 | he2
    · rw [he2]; rfl
    · cases he2


/-- The seeded jeans product (seedDatabase.js): five variants, in
document order S/Indigo 12, M/Indigo 25, L/Indigo 20, M/Black 15,
L/Black 18; aggregate stock 90. -/
def jeansCatalog : List Product :=
  [{ id := 70, name := "Slim Fit Jeans", images := ["/uploads/products/sample-jeans-1.jpg"],
     variants :=
       [{ size := "S", color := "Indigo", sku := some "JNS-S-IND", stock := 12, price := none },
        { size := "M", color := "Indigo", sku := some "JNS-M-IND", stock := 25, price := none },
        { size := "L", color := "Indigo", sku := some "JNS-L-IND", stock := 20, price := none },
        { size := "M", color := "Black", sku := some "JNS-M-BLK", stock := 15, price := none },
        { size := "L", color := "Black", sku := some "JNS-L-BLK", stock := 18, price := none }],
     totalStock := 90 }]

/-- A cart ordering 16 units of the jeans' L/Black variant. -/
def jeansCart : Cart :=
  { user := 9,
    items := [{ id := 0, product := 70, size := "L", color := "Black",
                sku := some "JNS-L-BLK", quantity := 16, price := 1299 }],
    subtotal := 20784, discount := 0, couponCode := none,
    shipping := 0, tax := 3741.12, total := 24525.12 }

/-- C1 (code bug): the claim — checkout decrements every purchased
variant's stock by exactly the ordered quantity — matches the spec and
the validation loop (which resolves the variant by both size and color),
but the stock-decrement `updateOne` omits `$elemMatch`, so the positional
`$` is resolved from a single leaf condition.  Buying 16 × L/Black of the
seeded jeans therefore succeeds, leaves the purchased L/Black variant at
its original 18, and instead drives M/Black (the first Black variant)
from 15 to −1 — below the `min: 0` bound the variant schema itself
declares (under a size-leaf resolution the mistarget would be L/Indigo,
still not the purchased variant).  Only totalStock is decremented by the
ordered quantity. -/
theorem claim_C1_positional_mistarget :
    (createOrder jeansCatalog (some jeansCart) 9 "cod" 0 "20240101" 0).2 = none ∧
    stockOf (createOrder jeansCatalog (some jeansCart) 9 "cod" 0 "20240101" 0).1.1
        70 "L" "Black" = some 18 ∧
    stockOf (createOrder jeansCatalog (some jeansCart) 9 "cod" 0 "20240101" 0).1.1
        70 "M" "Black" = some (-1) ∧
    totalStockOf (createOrder jeansCatalog (some jeansCart) 9 "cod" 0 "20240101" 0).1.1
        70 = some 74 := by
  refine ⟨rfl, by decide, by decide, by decide⟩

/-- A pending order for 2 units of the jeans' L/Black variant. -/
def jeansOrder : Order :=
  { orderNumber := some "ORD-20240101-000002", user := 9,
    items := [{ product := 70, name := "Slim Fit Jeans",
                image := "/uploads/products/sample-jeans-1.jpg", size := "L",
                color := "Black", sku := some "JNS-L-BLK", quantity := 2, price := 1299,
                total := 2598 }],
    payment := { method := "cod", status := "pending" },
    pricing := { subtotal := 2598, discount := 0, couponCode := none, shipping := 0,
                 tax := 467.64, total := 3065.64 },
    status := "pending", statusModified := false, statusHistory := [],
    shipping := { carrier := none, trackingNumber := none, shippedAt := none,
                  deliveredAt := none },
    cancellation := none }

/-- C3 (code bug): the claim — a successful cancel restores every order
item's variant stock by exactly its ordered quantity — matches the spec
and the order's own item snapshot, but the restore loop's `updateOne`
has the same missing-`$elemMatch` positional filter as checkout.
Cancelling the pending 2 × L/Black jeans order succeeds and flips the
status to cancelled, yet the ordered L/Black variant stays at 18 while
M/Black (the first Black variant) is restored from 15 to 17 instead
(under a size-leaf resolution the mistarget would be L/Indigo, still not
the ordered variant). -/
theorem claim_C3_positional_mistarget :
    (cancelOrder jeansCatalog jeansOrder none 9 5 1 "20240102").2 = none ∧
    (cancelOrder jeansCatalog jeansOrder none 9 5 1 "20240102").1.2.status = "cancelled" ∧
    stockOf (cancelOrder jeansCatalog jeansOrder none 9 5 1 "20240102").1.1
        70 "L" "Black" = some 18 ∧
    stockOf (cancelOrder jeansCatalog jeansOrder none 9 5 1 "20240102").1.1
        70 "M" "Black" = some 17 := by
  refine ⟨rfl, rfl, by decide, by decide⟩

end Shop
